import Mathlib

/-!
Verification of the personal-agent repository: a shallow embedding of the
data model and operations of the IRIS READ→PLAN→WRITE engine, the worker
decision→action loop, the model router and metrics ledger, the syscall
command filter, the account manager, and the atomic JSON store, together
with theorems settling the specification claims about them.
-/

namespace PersonalAgent

/-! ### File system model

A file system maps a path to the content of the file at that path, when it
exists.  Content stands for the raw bytes of the file (`shutil.copy2` and
the write in `_apply_edit` move whole contents around). -/

def FS : Type := String → Option String

/-- Writing a file: `open(path, "w"); f.write(content)`. -/
def FS.write (fs : FS) (path content : String) : FS :=
  fun p => if p = path then some content else fs p

/-! ### ContextManager checkpoints (src/agent/iris_context.py)

`create_checkpoint` copies the file byte-for-byte to the checkpoint path
when the file exists (otherwise it only returns the path); `rollback_file`
copies the checkpoint back over the target when the checkpoint exists. -/

/-- `ContextManager.create_checkpoint`: `shutil.copy2(file_path, checkpoint_path)`
guarded by `Path(file_path).exists()`. -/
def createCheckpoint (fs : FS) (filePath cpPath : String) : FS :=
  match fs filePath with
  | some content => FS.write fs cpPath content
  | none => fs

/-- `ContextManager.rollback_file`: `shutil.copy2(checkpoint_path, target_path)`
guarded by `Path(checkpoint_path).exists()`. -/
def rollbackFile (fs : FS) (cpPath targetPath : String) : FS :=
  match fs cpPath with
  | some content => FS.write fs targetPath content
  | none => fs

/-! ### IntendedEdit and AgentLoop._apply_edit (src/agent/iris_loop.py) -/

/-- Dataclass `IntendedEdit` of iris_context.py: a planned file modification
with a 1-based inclusive line range. -/
structure IntendedEdit where
  file : String
  range : Nat × Nat
  reason : String
  new_content : Option String := none
deriving DecidableEq, Repr

/-- `AgentLoop._apply_edit`: read the current content (empty when the file is
missing), split into lines, replace the 1-based inclusive range
`[range.1, range.2]` by the lines of `new_content`, and write the result
back.  A `None` new_content makes the call a no-op.  `max(0, start-1)` is
truncated natural subtraction and `min(len(lines), end)` clamps the end. -/
def applyEdit (fs : FS) (edit : IntendedEdit) : FS :=
  match edit.new_content with
  | none => fs
  | some newContent =>
    let current := (fs edit.file).getD ""
    let lines := current.splitOn "\n"
    let startLine := edit.range.1 - 1
    let endLine := min lines.length edit.range.2
    let newLines := newContent.splitOn "\n"
    let resultLines := lines.take startLine ++ newLines ++ lines.drop endLine
    FS.write fs edit.file (String.intercalate "\n" resultLines)

/-- Helper for stating FS facts. -/
theorem FS.write_same (fs : FS) (path content : String) :
    FS.write fs path content path = some content := by
  simp [FS.write]

theorem FS.write_other (fs : FS) (path content p : String) (h : p ≠ path) :
    FS.write fs path content p = fs p := by
  simp [FS.write, h]

theorem applyEdit_other (fs : FS) (edit : IntendedEdit) (p : String)
    (h : p ≠ edit.file) : applyEdit fs edit p = fs p := by
  unfold applyEdit
  cases edit.new_content with
  | none => rfl
  | some c => exact FS.write_other _ _ _ _ h

theorem createCheckpoint_keeps (fs : FS) (filePath cpPath p : String)
    (h : p ≠ cpPath) : createCheckpoint fs filePath cpPath p = fs p := by
  unfold createCheckpoint
  cases fs filePath with
  | none => rfl
  | some c => exact FS.write_other _ _ _ _ h

/-- C2.  For an existing file, checkpoint creation followed by an applied
edit and then `rollback_file` restores the file content exactly: the
checkpoint round trip is byte-exact.  The checkpoint path is the fresh
`.context/checkpoints/<task_id>/<basename>.orig.<millis>` path, distinct
from the edited file. -/
theorem checkpoint_rollback_roundtrip (fs : FS) (edit : IntendedEdit)
    (cpPath origContent : String)
    (hex : fs edit.file = some origContent) (hne : cpPath ≠ edit.file) :
    rollbackFile (applyEdit (createCheckpoint fs edit.file cpPath) edit)
      cpPath edit.file edit.file = some origContent := by
  have hcp1 : createCheckpoint fs edit.file cpPath cpPath = some origContent := by
    unfold createCheckpoint
    rw [hex]
    exact FS.write_same _ _ _
  have hcp2 : applyEdit (createCheckpoint fs edit.file cpPath) edit cpPath
      = some origContent := by
    rw [applyEdit_other _ _ _ hne]
    exact hcp1
  unfold rollbackFile
  rw [hcp2]
  exact FS.write_same _ _ _

/-- Concrete instantiation of the checkpoint round trip. -/
def editEx : IntendedEdit :=
  { file := "agent/iris_context.py", range := (1, 2), reason := "demo" ,
    new_content := some "# replaced" }

def fsEx : FS :=
  fun p => if p = "agent/iris_context.py" then some "line one\nline two\nline three" else none

/-- Witness for C2: the round trip evaluated on a concrete three-line file. -/
theorem checkpoint_rollback_roundtrip_witness :
    rollbackFile (applyEdit (createCheckpoint fsEx editEx.file "cp.orig.1") editEx)
      "cp.orig.1" editEx.file editEx.file = some "line one\nline two\nline three" :=
  checkpoint_rollback_roundtrip fsEx editEx "cp.orig.1"
    "line one\nline two\nline three" (by decide) (by decide)

/-! ### Journal and compaction (src/agent/iris_context.py)

`_compact_journal` keeps `min(journal_max, len - compact_after)` most recent
entries and prepends one synthetic INIT summary entry in place of the rest.
Python slicing with a negative index is modelled including the boundary case
`lst[-0:] = lst` and `lst[:-0] = []`. -/

/-- Simple JSON-like values stored in journal entry metadata. -/
inductive JVal
  | b (v : Bool)
  | n (v : Nat)
  | s (v : String)
deriving DecidableEq, Repr

/-- Dataclass `JournalEntry`. -/
structure JournalEntry where
  ts : String
  task_id : String
  phase : String
  desc : String
  meta : Option (List (String × JVal)) := none
deriving DecidableEq, Repr

/-- Python `lst[-k:]` for a natural k: the k most recent elements, except
that k = 0 yields the whole list. -/
def pyTakeLast (l : List α) (k : Nat) : List α :=
  if k = 0 then l else l.drop (l.length - k)

/-- Python `lst[:-k]` for a natural k: all but the k last elements, except
that k = 0 yields the empty list. -/
def pyDropLast (l : List α) (k : Nat) : List α :=
  if k = 0 then [] else l.take (l.length - k)

/-- `ContextManager._summarize_entries`. -/
def summarizeEntries (entries : List JournalEntry) : String :=
  let phases := (entries.take 10).map (fun e => e.phase ++ ": " ++ e.desc)
  "Historical actions: " ++ String.intercalate ", " phases ++ "..."

/-- The synthetic summary entry built by `_compact_journal`. -/
def mkCompactSummaryEntry (nowTs : String) (oldEntries : List JournalEntry) :
    JournalEntry :=
  { ts := nowTs
    task_id := ((oldEntries.head?).map (fun e => e.task_id)).getD "unknown"
    phase := "INIT"
    desc := "Compacted " ++ toString oldEntries.length ++ " entries: "
      ++ summarizeEntries oldEntries
    meta := some [("compacted", JVal.b true), ("entry_count", JVal.n oldEntries.length)] }

/-- `ContextManager._compact_journal`: no-op when the length is at most
`compact_after`; otherwise keep the `min(journal_max, len - compact_after)`
most recent entries behind one synthetic summary entry. -/
def compactJournal (journalMax compactAfter : Nat) (nowTs : String)
    (entries : List JournalEntry) : List JournalEntry :=
  if entries.length ≤ compactAfter then entries
  else
    let keepCount := min journalMax (entries.length - compactAfter)
    let recentEntries := pyTakeLast entries keepCount
    let oldEntries := pyDropLast entries keepCount
    mkCompactSummaryEntry nowTs oldEntries :: recentEntries

/-- The compaction step of `ContextManager.write_journal`: compact exactly
when the length exceeds `compact_after`, before writing to disk.  (The file
lock behaviour of write_journal is modelled separately below.) -/
def writeJournalCompacted (journalMax compactAfter : Nat) (nowTs : String)
    (entries : List JournalEntry) : List JournalEntry :=
  if entries.length > compactAfter then
    compactJournal journalMax compactAfter nowTs entries
  else entries

theorem pyTakeLast_length (l : List α) (k : Nat) (hk : 0 < k) (hkl : k ≤ l.length) :
    (pyTakeLast l k).length = k := by
  unfold pyTakeLast
  rw [if_neg (Nat.pos_iff_ne_zero.mp hk)]
  rw [List.length_drop]
  omega

theorem compactJournal_structure (journalMax compactAfter : Nat) (nowTs : String)
    (entries : List JournalEntry) (hlen : compactAfter < entries.length) :
    compactJournal journalMax compactAfter nowTs entries =
      mkCompactSummaryEntry nowTs
          (pyDropLast entries (min journalMax (entries.length - compactAfter)))
        :: pyTakeLast entries (min journalMax (entries.length - compactAfter)) := by
  unfold compactJournal
  rw [if_neg (by omega)]

theorem compactJournal_length (journalMax compactAfter : Nat) (nowTs : String)
    (entries : List JournalEntry) (hjm : 1 ≤ journalMax)
    (hlen : compactAfter < entries.length) :
    (compactJournal journalMax compactAfter nowTs entries).length =
      1 + min journalMax (entries.length - compactAfter) := by
  rw [compactJournal_structure _ _ _ _ hlen]
  rw [List.length_cons]
  rw [pyTakeLast_length _ _ (by omega) (by omega)]
  omega

/-- A concrete journal entry for the counterexample. -/
def entryEx : JournalEntry :=
  { ts := "2026-01-01T00:00:00", task_id := "1", phase := "READ", desc := "Read 3 files" }

/-- C7 counterexample.  With the default meta (journal_max = 200,
compact_after = 50), compacting a journal of 251 entries leaves
1 + min 200 (251 - 50) = 201 entries: the claimed bound
"length after compaction ≤ journal_max" is violated. -/
theorem journal_compaction_counterexample :
    ¬ ((writeJournalCompacted 200 50 "2026-01-01T00:00:01"
        (List.replicate 251 entryEx)).length ≤ 200) := by
  have hl : (List.replicate 251 entryEx).length = 251 := List.length_replicate _ _
  have h : (writeJournalCompacted 200 50 "2026-01-01T00:00:01"
      (List.replicate 251 entryEx)).length = 201 := by
    unfold writeJournalCompacted
    rw [if_pos (by omega)]
    rw [compactJournal_length 200 50 _ _ (by omega) (by omega)]
    rw [hl]
    omega
  omega

/-- C7 amended.  Writing a journal whose length n exceeds compact_after
first compacts it: the oldest n - min(journal_max, n - compact_after)
entries are replaced by one synthetic INIT summary entry ahead of the
min(journal_max, n - compact_after) most recent entries, so the resulting
length is 1 + min(journal_max, n - compact_after), which is at most
journal_max + 1 (and not always at most journal_max). -/
theorem journal_compaction_amended (journalMax compactAfter : Nat) (nowTs : String)
    (entries : List JournalEntry) (hjm : 1 ≤ journalMax)
    (hlen : compactAfter < entries.length) :
    writeJournalCompacted journalMax compactAfter nowTs entries =
      mkCompactSummaryEntry nowTs
          (pyDropLast entries (min journalMax (entries.length - compactAfter)))
        :: pyTakeLast entries (min journalMax (entries.length - compactAfter)) ∧
    (writeJournalCompacted journalMax compactAfter nowTs entries).length =
      1 + min journalMax (entries.length - compactAfter) ∧
    (writeJournalCompacted journalMax compactAfter nowTs entries).length ≤
      journalMax + 1 := by
  have hw : writeJournalCompacted journalMax compactAfter nowTs entries =
      compactJournal journalMax compactAfter nowTs entries := by
    unfold writeJournalCompacted
    rw [if_pos (by omega)]
  refine ⟨?_, ?_, ?_⟩
  · rw [hw]; exact compactJournal_structure _ _ _ _ hlen
  · rw [hw]; exact compactJournal_length _ _ _ _ hjm hlen
  · rw [hw, compactJournal_length _ _ _ _ hjm hlen]; omega

/-- Witness for the amended C7 theorem: a three-entry journal with
journal_max = 2, compact_after = 1 compacts to 1 + min 2 2 = 3 entries. -/
theorem journal_compaction_amended_witness :
    (writeJournalCompacted 2 1 "2026-01-01T00:00:02"
        (List.replicate 3 entryEx)).length = 1 + min 2 2 ∧
    (writeJournalCompacted 2 1 "2026-01-01T00:00:02"
        (List.replicate 3 entryEx)).length ≤ 2 + 1 := by
  have hl : (List.replicate 3 entryEx).length = 3 := List.length_replicate _ _
  have h := journal_compaction_amended 2 1 "2026-01-01T00:00:02"
    (List.replicate 3 entryEx) (by omega) (by omega)
  exact ⟨by rw [h.2.1, hl], h.2.2⟩

/-! ### Dict update helper

Python assignment `d[k] = v` on a dict: replace an existing binding or
append a new one. -/

def assocSet {α : Type} (m : List (String × α)) (k : String) (v : α) :
    List (String × α) :=
  if (m.lookup k).isSome then
    m.map (fun kv => if kv.1 = k then (k, v) else kv)
  else m ++ [(k, v)]

/-! ### ModelRouter (src/agent/model_router.py)

The constructor registers the built-in "dummy" and "openai" providers and
picks the default from the OPENAI_API_KEY environment variable.
`get_provider` resolves `name or default` (Python truthiness treats the
empty string as absent) and falls back to the "dummy" entry for unknown
names. -/

/-- Provider instances registered with the router. -/
inductive Provider
  | dummyProvider
  | openaiProvider
  | custom (id : String)
deriving DecidableEq, Repr

/-- Router state: the name → provider dict (in registration order) and the
default provider name. -/
structure ModelRouter where
  providers : List (String × Provider)
  defaultProvider : Option String
deriving DecidableEq, Repr

/-- `ModelRouter.register`. -/
def routerRegister (r : ModelRouter) (name : String) (p : Provider) : ModelRouter :=
  { r with providers := assocSet r.providers name p }

/-- `ModelRouter.__init__`: register "dummy" and "openai", then set the
default to "openai" when OPENAI_API_KEY is present, else "dummy". -/
def routerInit (hasOpenAIKey : Bool) : ModelRouter :=
  let r0 : ModelRouter := { providers := [], defaultProvider := none }
  let r1 := routerRegister r0 "dummy" Provider.dummyProvider
  let r2 := routerRegister r1 "openai" Provider.openaiProvider
  { r2 with defaultProvider := if hasOpenAIKey then some "openai" else some "dummy" }

/-- `ModelRouter.get_provider`: `provider_name = name or self._default_provider`
(the empty string counts as no name); unknown or absent names fall back to
`self._providers["dummy"]` (modelled as a lookup, which the caller expects
to succeed). -/
def getProvider (r : ModelRouter) (name : Option String) : Option Provider :=
  let providerName : Option String :=
    match name with
    | some s => if s = "" then r.defaultProvider else some s
    | none => r.defaultProvider
  match providerName with
  | none => r.providers.lookup "dummy"
  | some pn =>
    match r.providers.lookup pn with
    | some p => some p
    | none => r.providers.lookup "dummy"

/-- C10 counterexample.  With OPENAI_API_KEY set, the empty string is a
string name that is not a registered provider, yet `get_provider("")`
returns the openai provider rather than the dummy fallback: Python
truthiness routes the empty name to the default provider. -/
theorem get_provider_counterexample :
    getProvider (routerInit true) (some "") = some Provider.openaiProvider ∧
    (routerInit true).providers.lookup "" = none ∧
    Provider.openaiProvider ≠ Provider.dummyProvider := by
  refine ⟨rfl, rfl, by decide⟩

/-- C10 amended.  On the constructor state, `get_provider` never fails to
return a provider: a non-empty registered name returns that provider; a
non-empty unknown name falls back to the built-in dummy provider; the empty
name behaves like an omitted name and returns the default provider (openai
when OPENAI_API_KEY is set, else dummy). -/
theorem get_provider_amended (hasOpenAIKey : Bool) (name : String) :
    (getProvider (routerInit hasOpenAIKey) (some name)).isSome = true ∧
    (name ≠ "" → ∀ p, (routerInit hasOpenAIKey).providers.lookup name = some p →
      getProvider (routerInit hasOpenAIKey) (some name) = some p) ∧
    (name ≠ "" → (routerInit hasOpenAIKey).providers.lookup name = none →
      getProvider (routerInit hasOpenAIKey) (some name) = some Provider.dummyProvider) ∧
    (name = "" → getProvider (routerInit hasOpenAIKey) (some name) =
      (if hasOpenAIKey then some Provider.openaiProvider else some Provider.dummyProvider)) := by
  have hproviders : (routerInit hasOpenAIKey).providers =
      [("dummy", Provider.dummyProvider), ("openai", Provider.openaiProvider)] := by
    cases hasOpenAIKey <;> rfl
  have hdefault : (routerInit hasOpenAIKey).defaultProvider =
      (if hasOpenAIKey then some "openai" else some "dummy") := by
    cases hasOpenAIKey <;> rfl
  refine ⟨?_, ?_, ?_, ?_⟩
  · by_cases hempty : name = ""
    · subst hempty
      cases hasOpenAIKey <;> rfl
    · unfold getProvider
      rw [hproviders]
      simp only [if_neg hempty]
      cases List.lookup name
          [("dummy", Provider.dummyProvider), ("openai", Provider.openaiProvider)] with
      | some p => rfl
      | none => rfl
  · intro hempty p hp
    unfold getProvider
    simp only [if_neg hempty, hp]
  · intro hempty hp
    unfold getProvider
    simp only [if_neg hempty, hp]
    rw [hproviders]
    rfl
  · intro hempty
    subst hempty
    unfold getProvider
    simp only [if_pos rfl]
    rw [hdefault, hproviders]
    cases hasOpenAIKey <;> rfl

/-- Witness for the amended C10 theorem: the unknown name "mistral" without
an API key falls back to the dummy provider. -/
theorem get_provider_amended_witness :
    getProvider (routerInit false) (some "mistral") = some Provider.dummyProvider :=
  (get_provider_amended false "mistral").2.2.1 (by decide) rfl

/-! ### SyscallFilter.check_command (src/agent/security/syscall.py)

The source iterates `for pattern in dangerous_patterns` where every element
of `dangerous_patterns` is a tuple of strings, and evaluates
`pattern in command.lower()`.  In Python, membership of a tuple in a string
raises TypeError, so the loop raises on its first iteration. -/

/-- Substring containment on character lists. -/
def listContainsSub (hay needle : List Char) : Bool :=
  match hay with
  | [] => needle.isEmpty
  | _ :: t => needle.isPrefixOf hay || listContainsSub t needle

/-- A Python value that can appear as the left operand of `in` against a
string in check_command: a string or a tuple of strings. -/
inductive PyStrOrTuple
  | str (s : String)
  | tuple (elems : List String)
deriving DecidableEq, Repr

/-- Python `x in s` for a string s: substring test when x is a string;
a tuple left operand raises TypeError. -/
def pyInStr (x : PyStrOrTuple) (s : String) : Except String Bool :=
  match x with
  | .str sub => .ok (listContainsSub s.toList sub.toList)
  | .tuple _ =>
    .error "TypeError: in <string> requires string as left operand, not tuple"

/-- Python `x in st` for a set of strings st: a tuple is never equal to a
string, so tuple membership is simply false (no error). -/
def pyInStrSet (x : PyStrOrTuple) (st : List String) : Bool :=
  match x with
  | .str s => st.contains s
  | .tuple _ => false

/-- Printing a pattern into the f-string reasons of check_command. -/
def pyPatternText : PyStrOrTuple → String
  | .str s => s
  | .tuple elems => "(" ++ String.intercalate ", " elems ++ ")"

/-- The `dangerous_patterns` local of check_command: a list of tuples. -/
def dangerousPatterns : List PyStrOrTuple :=
  [ .tuple ["sudo", "doas", "pkexec"],
    .tuple ["apt install", "apt-get install", "pip install", "npm install"],
    .tuple ["wget", "curl", "nc", "ncat", "telnet"],
    .tuple ["iptables", "ufw", "mount", "umount"],
    .tuple ["killall", "pkill", "kill -9", "kill -SIGKILL"] ]

/-- Result dict of check_command. -/
structure CheckResult where
  allowed : Bool
  blocked : Bool
  reasons : List String
deriving DecidableEq, Repr

/-- The `for pattern in dangerous_patterns` loop of check_command,
accumulating blocked reasons and the blocked counter. -/
def checkCommandLoop (denylist allowlist : List String) (command : String) :
    List PyStrOrTuple → Nat → List String → Except String (Nat × List String)
  | [], count, reasons => .ok (count, reasons)
  | p :: rest, count, reasons =>
    match pyInStr p (command.toLower) with
    | .error e => .error e
    | .ok hit =>
      if hit then
        if denylist ≠ [] ∧ pyInStrSet p denylist then
          checkCommandLoop denylist allowlist command rest (count + 1)
            (reasons ++ ["Explicitly denied: " ++ pyPatternText p])
        else if allowlist ≠ [] then
          if allowlist.any (fun a => listContainsSub (command.toLower).toList a.toList) then
            checkCommandLoop denylist allowlist command rest count reasons
          else
            checkCommandLoop denylist allowlist command rest (count + 1)
              (reasons ++ ["Not in allowlist: " ++ pyPatternText p])
        else
          checkCommandLoop denylist allowlist command rest (count + 1)
            (reasons ++ ["Suspicious pattern: " ++ pyPatternText p])
      else checkCommandLoop denylist allowlist command rest count reasons

/-- `SyscallFilter.check_command`: run the pattern loop, then return the
blocked verdict (persisting the incremented counter) when any reason
accumulated, else the allowed verdict. -/
def checkCommand (denylist allowlist : List String) (blockedCount : Nat)
    (command : String) : Except String (CheckResult × Nat) :=
  match checkCommandLoop denylist allowlist command dangerousPatterns blockedCount [] with
  | .error e => .error e
  | .ok (count, reasons) =>
    if reasons.isEmpty then
      .ok ({ allowed := true, blocked := false, reasons := [] }, count)
    else
      .ok ({ allowed := false, blocked := true, reasons := reasons }, count)

/-- C5.  Every call to check_command raises TypeError: the first loop
iteration evaluates `pattern in command.lower()` with a tuple left operand,
so no command is ever classified and the blocked counter is never
persisted.  The decision logic described by the claim is unreachable. -/
theorem check_command_type_error (denylist allowlist : List String)
    (blockedCount : Nat) (command : String) :
    checkCommand denylist allowlist blockedCount command =
      .error "TypeError: in <string> requires string as left operand, not tuple" := rfl

/-! ### AccountManager (src/agent/auth/accounts.py)

accounts.py imports json, Path and typing but never imports time, so every
evaluation of `time.time()` inside it raises NameError at run time.  This
hits add_account, get_next_available, mark_used, set_cooldown and
get_account_stats. -/

/-- Account dict stored per provider. -/
structure Account where
  account_id : String
  credentials : List (String × String)
  priority : Int
  cooldown_until : Option Nat := none
  created_at : Option Nat := none
  last_used : Option Nat := none
  use_count : Nat := 0
deriving DecidableEq, Repr

/-- Evaluation of `time.time()` in the accounts module: the name `time` is
not defined there (the module never imports it), so the lookup raises. -/
def accountsTimeCall : Except String Nat :=
  .error "NameError: name time is not defined"

/-- Lexicographic sort key of get_next_available: `(-priority, cooldown_until or 0)`. -/
def accountSortLe (a b : Account) : Bool :=
  (-a.priority < -b.priority) ||
    (-a.priority == -b.priority &&
      (a.cooldown_until.getD 0) ≤ (b.cooldown_until.getD 0))

/-- The scan of get_next_available: the first sorted account whose cooldown
is absent, zero, or expired. -/
def firstAvailableAccount (currentTime : Nat) : List Account → Option Account
  | [] => none
  | a :: rest =>
    if a.cooldown_until.getD 0 = 0 ∨ a.cooldown_until.getD 0 < currentTime then
      some a
    else firstAvailableAccount currentTime rest

/-- `AccountManager.get_next_available`: absent provider returns None;
otherwise `current_time = time.time()` is evaluated before the sorted scan,
which raises NameError since time is not imported. -/
def getNextAvailable (accounts : List (String × List Account)) (provider : String) :
    Except String (Option Account) :=
  match accounts.lookup provider with
  | none => .ok none
  | some provAccounts =>
    match accountsTimeCall with
    | .error e => .error e
    | .ok currentTime =>
      .ok (firstAvailableAccount currentTime (provAccounts.mergeSort accountSortLe))

/-- The `for account in self._accounts[provider]` loop of mark_used: on the
first matching account id it evaluates `time.time()` (which raises), and
would otherwise set last_used, bump use_count and set
cooldown_until = now + 7200. -/
def markUsedGo (account_id : String) : List Account → Except String (Bool × List Account)
  | [] => .ok (false, [])
  | a :: rest =>
    if a.account_id = account_id then
      match accountsTimeCall with
      | .error e => .error e
      | .ok now =>
        .ok (true, { a with last_used := some now, use_count := a.use_count + 1, cooldown_until := some (now + 7200) } :: rest)
    else
      match markUsedGo account_id rest with
      | .error e => .error e
      | .ok (found, rest2) => .ok (found, a :: rest2)

/-- `AccountManager.mark_used`. -/
def markUsed (accounts : List (String × List Account)) (provider account_id : String) :
    Except String (Bool × List (String × List Account)) :=
  match accounts.lookup provider with
  | none => .ok (false, accounts)
  | some provAccounts =>
    match markUsedGo account_id provAccounts with
    | .error e => .error e
    | .ok (found, provAccounts2) => .ok (found, assocSet accounts provider provAccounts2)

theorem markUsedGo_error (account_id : String) (l : List Account)
    (hacct : ∃ a ∈ l, a.account_id = account_id) :
    markUsedGo account_id l = .error "NameError: name time is not defined" := by
  induction l with
  | nil => simp at hacct
  | cons a rest ih =>
    rcases hacct with ⟨b, hb, hbid⟩
    rcases List.mem_cons.mp hb with hba | hbr
    · subst hba
      simp [markUsedGo, hbid, accountsTimeCall]
    · by_cases hida : a.account_id = account_id
      · simp [markUsedGo, hida, accountsTimeCall]
      · simp [markUsedGo, hida, accountsTimeCall, ih ⟨b, hbr, hbid⟩]

/-- C6.  For a provider with a registered account, both mark_used and
get_next_available raise NameError (`time` is not imported in accounts.py):
mark_used never sets last_used, use_count or cooldown_until, and
get_next_available never returns an account. -/
theorem mark_used_name_error (accounts : List (String × List Account))
    (provider account_id : String) (provAccounts : List Account)
    (hprov : accounts.lookup provider = some provAccounts)
    (hacct : ∃ a ∈ provAccounts, a.account_id = account_id) :
    markUsed accounts provider account_id = .error "NameError: name time is not defined" ∧
    getNextAvailable accounts provider = .error "NameError: name time is not defined" := by
  constructor
  · simp [markUsed, hprov, markUsedGo_error account_id provAccounts hacct]
  · simp [getNextAvailable, hprov, accountsTimeCall]

/-- A concrete account for the C6 witness. -/
def accountEx : Account :=
  { account_id := "acct-1", credentials := [("api_key", "k")], priority := 1 }

/-- Witness for C6: one provider with one account. -/
theorem mark_used_name_error_witness :
    markUsed [("openai", [accountEx])] "openai" "acct-1" =
      .error "NameError: name time is not defined" ∧
    getNextAvailable [("openai", [accountEx])] "openai" =
      .error "NameError: name time is not defined" :=
  mark_used_name_error [("openai", [accountEx])] "openai" "acct-1" [accountEx]
    rfl ⟨accountEx, by decide, rfl⟩

/-! ### ModelRouter.generate with a metrics ledger (src/agent/model_router.py,
src/agent/model_metrics.py)

`generate` tries to record events through `self.model_metrics.record_request`,
but class ModelMetrics defines `record_generation`, not `record_request`.
Attribute lookup of a missing method raises AttributeError: inside the try
block on the success path (then again, uncaught, inside the except handler)
and inside the except handler on the failure path. -/

/-- The methods class ModelMetrics defines (model_metrics.py). -/
def modelMetricsMethods : List String :=
  ["__init__", "_load", "_save", "record_generation", "check_rate_limit",
   "get_provider_health", "is_provider_available"]

/-- Python attribute lookup on the ModelMetrics instance. -/
def metricsGetattr (name : String) : Except String String :=
  if modelMetricsMethods.contains name then .ok name
  else .error ("AttributeError: ModelMetrics object has no attribute " ++ name)

/-- Python `str.split()` with no separator: whitespace word count. -/
def wordCount (s : String) : Nat :=
  ((s.split (fun c => c.isWhitespace)).filter (fun w => w ≠ "")).length

/-- An event the router passes to the ledger recording call. -/
structure RecordedEvent where
  provider_name : String
  account_id : Option String
  success : Bool
  latency_ms : Nat
  tokens_in : Option Nat := none
  tokens_out : Option Nat := none
  error : Option String := none
deriving DecidableEq, Repr

/-- `ModelRouter.generate`, from the point where the provider is resolved:
call the provider, and when a metrics ledger is attached record the success
or failure event through `record_request`.  Returns the outcome together
with the events actually recorded on the ledger.  The provider call itself
is external and is passed in as its outcome. -/
def routerGenerate (metricsAttached : Bool) (providerName : String)
    (accountId : Option String) (prompt : String) (latency : Nat)
    (providerOutcome : Except String String) :
    Except String String × List RecordedEvent :=
  match providerOutcome with
  | .ok response =>
    if metricsAttached then
      match metricsGetattr "record_request" with
      | .ok _ =>
        (.ok response,
         [{ provider_name := providerName, account_id := accountId, success := true,
            latency_ms := latency, tokens_in := some (wordCount prompt),
            tokens_out := some (wordCount response) }])
      | .error e =>
        -- the AttributeError raised inside the try block is caught by the
        -- except handler, which looks up record_request again and raises
        match metricsGetattr "record_request" with
        | .ok _ =>
          (.error e,
           [{ provider_name := providerName, account_id := accountId, success := false,
              latency_ms := latency, error := some e }])
        | .error e2 => (.error e2, [])
    else (.ok response, [])
  | .error e =>
    if metricsAttached then
      match metricsGetattr "record_request" with
      | .ok _ =>
        (.error e,
         [{ provider_name := providerName, account_id := accountId, success := false,
            latency_ms := latency, error := some e }])
      | .error e2 => (.error e2, [])
    else (.error e, [])

/-- C4.  With a ModelMetrics ledger attached, generate never records any
event and never returns the provider response: record_request is not an
attribute of ModelMetrics, so an AttributeError is raised on both the
success and the failure path. -/
theorem router_generate_attribute_error (providerName : String)
    (accountId : Option String) (prompt : String) (latency : Nat)
    (providerOutcome : Except String String) :
    routerGenerate true providerName accountId prompt latency providerOutcome =
      (.error "AttributeError: ModelMetrics object has no attribute record_request",
       []) := by
  cases providerOutcome with
  | ok response => rfl
  | error e => rfl

/-! ### WorkerAgent decision→action loop (src/agent/agents/executor.py)

`_run_task_loop` (with no profile attached: the skill branch is skipped and
max_tools_per_step = 3) runs a while loop up to max_steps = 10.  The model
text of each iteration is consumed through the helpers; what the loop sees
of them is captured per iteration by a StepInput: the CommandResult of
`command_registry.execute_command`, the `_is_complete` verdict, and the
outcomes `_execute_tool` produces for the calls `_detect_tool_calls` found.
When the final iteration ends in a `continue`, the while loop exits and the
function body ends without a return statement: Python returns None, and
`execute` then fails on `result.get`. -/

/-- CommandResult returned by command execution. -/
structure CommandResult where
  success : Bool
  output : String
  state_changes : List (String × String)
  interrupt_execution : Bool
deriving DecidableEq, Repr

/-- The dict a tool execution returns. -/
structure ToolOutcome where
  output : String
  error : Option String := none
deriving DecidableEq, Repr

/-- What one iteration of the loop observes from the generated text. -/
structure StepInput where
  command : Option CommandResult := none
  isComplete : Bool := false
  toolCalls : List ToolOutcome := []
deriving Repr

/-- The result dict of `_run_task_loop`. -/
structure LoopResult where
  success : Bool
  steps_completed : Nat
  error : Option String := none
deriving DecidableEq, Repr

/-- `WorkerAgent._apply_command_state_changes`: after updating the task
status it evaluates a return dict that references `steps_completed`, a name
not defined in that method, so every call with state changes raises
NameError. -/
def applyCommandStateChanges (state_changes : List (String × String)) :
    Except String Unit :=
  .error "NameError: name steps_completed is not defined"

/-- The first tool outcome whose error field is truthy (`result.get("error")`:
None and the empty string are falsy). -/
def firstToolError : List ToolOutcome → Option String
  | [] => none
  | t :: rest =>
    match t.error with
    | some e => if e ≠ "" then some e else firstToolError rest
    | none => firstToolError rest

/-- The while loop of `_run_task_loop`, unrolled on the number of remaining
iterations (`remaining = max_steps - steps_completed`); `k` is the value of
steps_completed after the increment at the top of the body.  Exception
propagation is the Except layer; `.ok none` is the implicit None returned
when the while condition fails and the function body ends. -/
def runTaskLoopGo (oracle : Nat → StepInput) (maxSteps maxTools : Nat) :
    Nat → Except String (Option LoopResult)
  | 0 => .ok none
  | remaining + 1 =>
    let k := maxSteps - remaining
    let inp := oracle k
    match inp.command with
    | some cr =>
      -- task.add_step("command", ...)
      if cr.state_changes.isEmpty then
        if cr.interrupt_execution then
          .ok (some { success := true, steps_completed := k })
        else runTaskLoopGo oracle maxSteps maxTools remaining
      else
        match applyCommandStateChanges cr.state_changes with
        | .error e => .error e
        | .ok _ =>
          if cr.interrupt_execution then
            .ok (some { success := true, steps_completed := k })
          else runTaskLoopGo oracle maxSteps maxTools remaining
    | none =>
      -- task.add_step("decision", ...)
      if inp.isComplete then
        .ok (some { success := true, steps_completed := k })
      else if inp.toolCalls.isEmpty then
        -- task.add_step("action", decision[:200]); continue
        runTaskLoopGo oracle maxSteps maxTools remaining
      else
        match firstToolError (inp.toolCalls.take maxTools) with
        | some e =>
          .ok (some { success := false, steps_completed := k,
                      error := some ("Tool failed: " ++ e) })
        | none =>
          if maxSteps ≤ k then
            .ok (some { success := true, steps_completed := k })
          else runTaskLoopGo oracle maxSteps maxTools remaining

/-- `WorkerAgent._run_task_loop` with the default max_steps. -/
def runTaskLoop (oracle : Nat → StepInput) (maxSteps maxTools : Nat) :
    Except String (Option LoopResult) :=
  runTaskLoopGo oracle maxSteps maxTools maxSteps

/-- `WorkerAgent.execute` without a profile: run the loop with
max_steps = 10 and max_tools_per_step = 3; any exception (including the
AttributeError from `None.get` when the loop returned None) is caught and
reported as a failure with steps_completed = 0. -/
def workerExecute (oracle : Nat → StepInput) : LoopResult :=
  match runTaskLoop oracle 10 3 with
  | .error e => { success := false, steps_completed := 0, error := some e }
  | .ok none =>
    { success := false, steps_completed := 0,
      error := some "AttributeError: NoneType object has no attribute get" }
  | .ok (some r) => r

/-- An iteration whose text triggers nothing: no command, no completion
marker, no tool-call match. -/
def idleStep : StepInput := {}

/-- An iteration whose text contains one tool call that executes cleanly. -/
def toolStep : StepInput := { toolCalls := [{ output := "ok" }] }

/-- C3.  Exhausting the step budget does not count as success on every
execution: when all 10 iterations end in `continue` (no command, no
completion, no tool calls), `_run_task_loop` falls off the end of the while
loop and returns None, and `execute` reports failure with
steps_completed = 0; the in-loop max-steps success return is reached only
when the final iteration executed tool calls, as the second conjunct
shows. -/
theorem worker_max_steps_fall_through :
    workerExecute (fun _ => idleStep) =
      { success := false, steps_completed := 0,
        error := some "AttributeError: NoneType object has no attribute get" } ∧
    workerExecute (fun _ => toolStep) =
      { success := true, steps_completed := 10, error := none } := by
  exact ⟨rfl, rfl⟩

/-! ### IRIS WRITE phase (src/agent/iris_loop.py, _execute_write_phase)

Each iteration reloads the context through `ContextManager.load_context`,
which rebuilds only the top-level dataclasses: `CurrentTask(**data)` leaves
the nested read_state as the plain JSON dict, so the enforcement check
`edit.file not in context.current_task.read_state.files_read` raises
AttributeError (a dict has no attribute files_read).  execute_task catches
it as a generic exception (ERR_EXECUTION_FAILED), not as the enforcement
error. -/

/-- The value `context.current_task.read_state` holds after load_context:
either a ReadState dataclass instance (never produced by load_context) or
the plain dict deserialized from JSON. -/
inductive LoadedReadState
  | asDataclass (files_read : List String)
  | asDict (files_read : List String)
deriving DecidableEq, Repr

/-- Python attribute access `read_state.files_read` (the keys of the map):
defined on the dataclass, raises AttributeError on the plain dict. -/
def readStateFilesRead : LoadedReadState → Except String (List String)
  | .asDataclass fr => .ok fr
  | .asDict _ => .error "AttributeError: dict object has no attribute files_read"

/-- The persisted current_task JSON the WRITE phase consults (only the parts
it reads): the keys of read_state.files_read. -/
structure StoredTask where
  task_id : String
  goal : String
  files_read : List String
deriving DecidableEq, Repr

/-- `current_task` as load_context rebuilds it. -/
structure LoadedCurrentTask where
  task_id : String
  goal : String
  read_state : LoadedReadState
deriving DecidableEq, Repr

/-- `load_context`: `CurrentTask(**data["current_task"])` when present; the
nested read_state stays the plain dict. -/
def loadCurrentTask (stored : Option StoredTask) : Option LoadedCurrentTask :=
  stored.map (fun s =>
    { task_id := s.task_id, goal := s.goal,
      read_state := LoadedReadState.asDict s.files_read })

/-- `AgentLoop._generate_edit_content`. -/
def generateEditContent (edit : IntendedEdit) (taskGoal : String) : String :=
  "# Modified for: " ++ taskGoal ++ "\n# Lines " ++ toString edit.range.1 ++ "-"
    ++ toString edit.range.2 ++ "\n# " ++ edit.reason ++ "\n"

/-- Outcome of `_execute_write_phase`, carrying the final file system and
the checkpoints created (path, source file) in order.  `completed ok`
mirrors the boolean return; `enforcementError` mirrors the raised
IRISEnforcementError; `pyError` any other exception propagating out. -/
inductive WritePhaseResult
  | completed (ok : Bool) (fs : FS) (checkpoints : List (String × String))
  | enforcementError (msg : String) (fs : FS) (checkpoints : List (String × String))
  | pyError (msg : String) (fs : FS) (checkpoints : List (String × String))

/-- The `for edit in plan.intended_edits` loop of `_execute_write_phase`:
reload the context, run the MUST_READ_FIRST check, generate the content,
create a checkpoint (at the timestamped path `cpPathF k`), apply the edit,
and verify (the py_compile subprocess verdict for edit k is the oracle
`verify k`), rolling back on failure. -/
def writePhaseGo (stored : Option StoredTask) (taskGoal : String)
    (cpPathF : Nat → String) (verify : Nat → Bool) :
    List IntendedEdit → Nat → FS → List (String × String) → WritePhaseResult
  | [], _, fs, cps => .completed true fs cps
  | edit :: rest, k, fs, cps =>
    match loadCurrentTask stored with
    | none =>
      .enforcementError ("MUST_READ_FIRST: File " ++ edit.file ++ " not in read state")
        fs cps
    | some ct =>
      match readStateFilesRead ct.read_state with
      | .error e => .pyError e fs cps
      | .ok filesRead =>
        if edit.file ∈ filesRead then
          let content := generateEditContent edit taskGoal
          let cp := cpPathF k
          let fs1 := createCheckpoint fs edit.file cp
          let fs2 := applyEdit fs1 { edit with new_content := some content }
          if verify k then
            writePhaseGo stored taskGoal cpPathF verify rest (k + 1) fs2
              (cps ++ [(cp, edit.file)])
          else
            .completed false (rollbackFile fs2 cp edit.file) (cps ++ [(cp, edit.file)])
        else
          .enforcementError ("MUST_READ_FIRST: File " ++ edit.file ++ " not in read state")
            fs cps

/-- `AgentLoop._execute_write_phase` on a plan. -/
def writePhase (stored : Option StoredTask) (taskGoal : String)
    (cpPathF : Nat → String) (verify : Nat → Bool) (edits : List IntendedEdit)
    (fs : FS) : WritePhaseResult :=
  writePhaseGo stored taskGoal cpPathF verify edits 0 fs []

/-- C1.  Whenever the stored context has a current task (execute_task always
sets one before the phases) and the plan is non-empty, the WRITE phase
raises AttributeError at its very first enforcement check — load_context
left read_state a plain dict — so it fails before any checkpoint is created
and before any file is modified, but with a generic exception
(ERR_EXECUTION_FAILED), never with ERR_ENFORCEMENT_VIOLATION, regardless of
whether the edit files were read. -/
theorem write_phase_attribute_error (stored : StoredTask) (taskGoal : String)
    (cpPathF : Nat → String) (verify : Nat → Bool) (edits : List IntendedEdit)
    (fs : FS) (hne : edits ≠ []) :
    writePhase (some stored) taskGoal cpPathF verify edits fs =
      .pyError "AttributeError: dict object has no attribute files_read" fs [] := by
  cases edits with
  | nil => exact absurd rfl hne
  | cons edit rest => rfl

/-- Witness for C1: a one-edit plan against a context whose read_state
recorded the very file being edited still crashes with AttributeError. -/
theorem write_phase_attribute_error_witness :
    writePhase
        (some { task_id := "1", goal := "demo",
                files_read := ["agent/iris_context.py"] })
        "demo" (fun _ => "cp.orig.0") (fun _ => true)
        [{ file := "agent/iris_context.py", range := (1, 10),
           reason := "Implement requested functionality" }] fsEx =
      .pyError "AttributeError: dict object has no attribute files_read" fsEx [] :=
  write_phase_attribute_error
    { task_id := "1", goal := "demo", files_read := ["agent/iris_context.py"] }
    "demo" (fun _ => "cp.orig.0") (fun _ => true)
    [{ file := "agent/iris_context.py", range := (1, 10),
       reason := "Implement requested functionality" }] fsEx (by simp)

/-! ### MemoryStore (src/agent/memory.py)

The store file on disk either does not exist, holds a complete JSON
document, or holds interrupted (non-JSON) bytes.  `_load` tolerates the
first and third by initializing the map empty; `_save` writes the sibling
temp file and atomically renames it over the target, unlinking the temp
file and re-raising on IOError/OSError. -/

/-- One on-disk file as the store sees it. -/
inductive DiskFile
  | missing
  | complete (doc : List (String × String))
  | corrupt (bytes : String)
deriving DecidableEq, Repr

/-- File system for the store model. -/
def FSd : Type := String → DiskFile

def FSd.write (fs : FSd) (path : String) (f : DiskFile) : FSd :=
  fun p => if p = path then f else fs p

/-- `json.load` on an open file: a complete document parses; interrupted
bytes raise JSONDecodeError; the missing case cannot be opened. -/
def jsonLoadFile : DiskFile → Except String (List (String × String))
  | .missing => .error "FileNotFoundError"
  | .complete d => .ok d
  | .corrupt _ => .error "JSONDecodeError"

/-- The possible outcomes of one `_save` call: the dump and rename both
succeed, or `json.dump` hits an IOError mid-write (leaving interrupted
bytes in the temp file), or the rename raises OSError. -/
inductive SaveOutcome
  | ok
  | dumpFail (bytes : String)
  | replaceFail
deriving DecidableEq, Repr

/-- `MemoryStore._save`: write the full document to the sibling temp file,
then `temp_path.replace(self.filepath)` (atomic rename, which removes the
temp file); on IOError/OSError unlink the temp file and re-raise. -/
def storeSave (fs : FSd) (target temp : String) (d : List (String × String))
    (o : SaveOutcome) : FSd × Option String :=
  match o with
  | .ok =>
    let fs1 := FSd.write fs temp (DiskFile.complete d)
    (FSd.write (FSd.write fs1 target (DiskFile.complete d)) temp DiskFile.missing, none)
  | .dumpFail b =>
    let fs1 := FSd.write fs temp (DiskFile.corrupt b)
    (FSd.write fs1 temp DiskFile.missing, some "IOError")
  | .replaceFail =>
    let fs1 := FSd.write fs temp (DiskFile.complete d)
    (FSd.write fs1 temp DiskFile.missing, some "OSError")

/-- `MemoryStore._load`: a missing file initializes the map empty and
persists it with `_save`; JSONDecodeError/IOError from the parse are caught
and also initialize the map empty.  Returns (data, file system, raised). -/
def storeLoad (fs : FSd) (target temp : String) (o : SaveOutcome) :
    (List (String × String)) × FSd × Option String :=
  match fs target with
  | DiskFile.missing =>
    let (fs2, err) := storeSave fs target temp [] o
    ([], fs2, err)
  | f =>
    match jsonLoadFile f with
    | .ok d => (d, fs, none)
    | .error _ => ([], fs, none)

/-- `MemoryStore.set`: update the key and persist the whole document. -/
def storeSet (data : List (String × String)) (fs : FSd) (target temp : String)
    (key value : String) (o : SaveOutcome) :
    (List (String × String)) × FSd × Option String :=
  let d2 := assocSet data key value
  let (fs2, err) := storeSave fs target temp d2 o
  (d2, fs2, err)

/-- `MemoryStore.delete`: remove the key and persist only when present. -/
def storeDelete (data : List (String × String)) (fs : FSd) (target temp : String)
    (key : String) (o : SaveOutcome) :
    (List (String × String)) × FSd × Option String :=
  if (data.lookup key).isSome then
    let d2 := data.filter (fun kv => kv.1 ≠ key)
    let (fs2, err) := storeSave fs target temp d2 o
    (d2, fs2, err)
  else (data, fs, none)

/-- A set or delete operation together with the I/O outcome of its save. -/
inductive StoreOp
  | setOp (key value : String) (o : SaveOutcome)
  | delOp (key : String) (o : SaveOutcome)
deriving DecidableEq, Repr

/-- A sequence of set/delete operations against the store. -/
def runStoreOps (target temp : String) :
    List StoreOp → List (String × String) → FSd → (List (String × String)) × FSd
  | [], d, fs => (d, fs)
  | op :: rest, d, fs =>
    match op with
    | .setOp k v o =>
      let r := storeSet d fs target temp k v o
      runStoreOps target temp rest r.1 r.2.1
    | .delOp k o =>
      let r := storeDelete d fs target temp k o
      runStoreOps target temp rest r.1 r.2.1

theorem storeSave_target (fs : FSd) (target temp : String)
    (d : List (String × String)) (o : SaveOutcome) (htt : temp ≠ target) :
    (storeSave fs target temp d o).1 target = fs target ∨
      (storeSave fs target temp d o).1 target = DiskFile.complete d := by
  cases o with
  | ok =>
    right
    simp [storeSave, FSd.write, htt, Ne.symm htt]
  | dumpFail b =>
    left
    simp [storeSave, FSd.write, htt, Ne.symm htt]
  | replaceFail =>
    left
    simp [storeSave, FSd.write, htt, Ne.symm htt]

theorem runStoreOps_complete (target temp : String) (htt : temp ≠ target) :
    ∀ (ops : List StoreOp) (d : List (String × String)) (fs : FSd),
      (∃ d0, fs target = DiskFile.complete d0) →
      ∃ dn, (runStoreOps target temp ops d fs).2 target = DiskFile.complete dn := by
  intro ops
  induction ops with
  | nil => intro d fs h; exact h
  | cons op rest ih =>
    intro d fs h
    cases op with
    | setOp k v o =>
      refine ih _ _ ?_
      rcases storeSave_target fs target temp (assocSet d k v) o htt with hold | hnew
      · rcases h with ⟨d0, hd0⟩
        exact ⟨d0, by simpa [runStoreOps, storeSet, hd0] using hold⟩
      · exact ⟨assocSet d k v, by simpa [runStoreOps, storeSet] using hnew⟩
    | delOp k o =>
      by_cases hk : (d.lookup k).isSome
      · refine ih _ _ ?_
        rcases storeSave_target fs target temp (d.filter (fun kv => kv.1 ≠ k)) o htt with
          hold | hnew
        · rcases h with ⟨d0, hd0⟩
          exact ⟨d0, by simpa [runStoreOps, storeDelete, hk, hd0] using hold⟩
        · exact ⟨d.filter (fun kv => kv.1 ≠ k),
            by simpa [runStoreOps, storeDelete, hk] using hnew⟩
      · refine ih _ _ ?_
        simpa [runStoreOps, storeDelete, hk] using h

/-- C8.  Load tolerates a missing or corrupt backing file by initializing
the map empty (the parse errors are caught, nothing propagates); save is
atomic: the target file afterwards holds either the previous content or the
new complete document, a failed save unlinks the temp file and propagates
the error, a successful save installs the new document; hence after any
sequence of set/delete operations a target that held a complete document
still holds some complete document — never a partial write. -/
theorem memory_store_atomic (target temp : String) (htt : temp ≠ target) :
    (∀ b o, (storeLoad (fun _ => DiskFile.corrupt b) target temp o).1 = [] ∧
      (storeLoad (fun _ => DiskFile.corrupt b) target temp o).2.2 = none) ∧
    (∀ dd o, (storeLoad (fun _ => DiskFile.complete dd) target temp o).1 = dd ∧
      (storeLoad (fun _ => DiskFile.complete dd) target temp o).2.2 = none) ∧
    (∀ o, (storeLoad (fun _ => DiskFile.missing) target temp o).1 = []) ∧
    (∀ fs d o, (storeSave fs target temp d o).1 target = fs target ∨
      (storeSave fs target temp d o).1 target = DiskFile.complete d) ∧
    (∀ fs d, (storeSave fs target temp d SaveOutcome.ok).1 target = DiskFile.complete d ∧
      (storeSave fs target temp d SaveOutcome.ok).2 = none) ∧
    (∀ fs d o, o ≠ SaveOutcome.ok →
      (storeSave fs target temp d o).1 target = fs target ∧
      (storeSave fs target temp d o).1 temp = DiskFile.missing ∧
      (storeSave fs target temp d o).2 ≠ none) ∧
    (∀ ops d fs, (∃ d0, fs target = DiskFile.complete d0) →
      ∃ dn, (runStoreOps target temp ops d fs).2 target = DiskFile.complete dn) := by
  refine ⟨?_, ?_, ?_, ?_, ?_, ?_, ?_⟩
  · intro b o; exact ⟨rfl, rfl⟩
  · intro dd o; exact ⟨rfl, rfl⟩
  · intro o; cases o <;> rfl
  · intro fs d o; exact storeSave_target fs target temp d o htt
  · intro fs d
    constructor
    · simp [storeSave, FSd.write, htt, Ne.symm htt]
    · rfl
  · intro fs d o ho
    cases o with
    | ok => exact absurd rfl ho
    | dumpFail b =>
      refine ⟨?_, ?_, ?_⟩
      · simp [storeSave, FSd.write, htt, Ne.symm htt]
      · simp [storeSave, FSd.write]
      · simp [storeSave]
    | replaceFail =>
      refine ⟨?_, ?_, ?_⟩
      · simp [storeSave, FSd.write, htt, Ne.symm htt]
      · simp [storeSave, FSd.write]
      · simp [storeSave]
  · exact runStoreOps_complete target temp htt

/-- Witness for C8 at the concrete paths data/tasks.json and
data/tasks.tmp: a set whose dump fails leaves the previous document
in place, and a sequence set-then-delete ends with a complete document. -/
theorem memory_store_atomic_witness :
    (storeSave (fun _ => DiskFile.complete [("a", "1")]) "data/tasks.json"
        "data/tasks.tmp" [("a", "2")] (SaveOutcome.dumpFail "x")).1 "data/tasks.json"
      = DiskFile.complete [("a", "1")] ∧
    ∃ dn, (runStoreOps "data/tasks.json" "data/tasks.tmp"
        [StoreOp.setOp "a" "2" SaveOutcome.ok,
         StoreOp.delOp "a" (SaveOutcome.dumpFail "y")]
        [("a", "1")] (fun _ => DiskFile.complete [("a", "1")])).2 "data/tasks.json"
      = DiskFile.complete dn := by
  have h := memory_store_atomic "data/tasks.json" "data/tasks.tmp" (by decide)
  constructor
  · exact (h.2.2.2.2.2.1 (fun _ => DiskFile.complete [("a", "1")]) [("a", "2")]
      (SaveOutcome.dumpFail "x") (by decide)).1
  · exact h.2.2.2.2.2.2
      [StoreOp.setOp "a" "2" SaveOutcome.ok,
       StoreOp.delOp "a" (SaveOutcome.dumpFail "y")]
      [("a", "1")] (fun _ => DiskFile.complete [("a", "1")])
      ⟨[("a", "1")], rfl⟩

/-! ### ContextManager file lock, write_journal and add_journal_entry
(src/agent/iris_context.py)

FileLock spins on the existence of .context/.lock, creates it on entry and
unlinks it on exit.  write_journal enters the lock and then evaluates
`len(journal.entries) > self.load_context().meta.compact_after`;
load_context begins by acquiring the same (non-reentrant) lock, whose file
now exists, so the inner spin never terminates.  add_journal_entry never
even reaches write_journal: it calls `asdict(entry)` on the plain entry
dict, and dataclasses.asdict raises TypeError on non-dataclass values. -/

/-- `FileLock.__enter__`: spin while the lock file exists, then create it.
The fuel bounds how many polls we observe; the result is the held lock
state if the spin finished within the fuel. -/
def acquireLock (lockHeld : Bool) : Nat → Option Bool
  | 0 => none
  | fuel + 1 => if lockHeld then acquireLock lockHeld fuel else some true

theorem acquireLock_held (fuel : Nat) : acquireLock true fuel = none := by
  induction fuel with
  | zero => rfl
  | succ n ih => simpa [acquireLock] using ih

/-- `ContextManager.write_journal`: acquire the lock (creating the lock
file), then evaluate the compaction condition, whose `self.load_context()`
acquires the same lock again.  `none` is non-termination within the given
number of polls. -/
def writeJournalRun (journal : List JournalEntry) (lockHeld : Bool) (fuel : Nat) :
    Option (List JournalEntry) :=
  match acquireLock lockHeld fuel with
  | none => none
  | some locked =>
    match acquireLock locked fuel with
    | none => none
    | some _ => some journal

/-- `dataclasses.asdict`: defined on dataclass instances, raises TypeError
on anything else. -/
def pyAsdict (isDataclassInstance : Bool) (fields : List (String × String)) :
    Except String (List (String × String)) :=
  if isDataclassInstance then .ok fields
  else .error "TypeError: asdict() should be called on dataclass instances"

/-- `ContextManager.add_journal_entry`: load the journal (no lock), build
`JournalEntry(ts=now, **asdict(entry))` — the entry argument is a plain
dict, not a dataclass instance — append, and hand to write_journal. -/
def addJournalEntry (journal : List JournalEntry) (entry : List (String × String))
    (nowTs : String) (fuel : Nat) : Except String (Option (List JournalEntry)) :=
  match pyAsdict false entry with
  | .error e => .error e
  | .ok fields =>
    let full : JournalEntry :=
      { ts := nowTs,
        task_id := (fields.lookup "task_id").getD "",
        phase := (fields.lookup "phase").getD "",
        desc := (fields.lookup "desc").getD "" }
    .ok (writeJournalRun (journal ++ [full]) false fuel)

/-- C9.  add_journal_entry never terminates normally nor appends: the
asdict call on the plain entry dict raises TypeError for every entry and
every journal; and even absent that, write_journal entered with the lock
free never finishes within any number of polls, because the compaction
condition re-acquires the non-reentrant lock it already holds. -/
theorem add_journal_entry_never_appends :
    (∀ (journal : List JournalEntry) (entry : List (String × String))
        (nowTs : String) (fuel : Nat),
      addJournalEntry journal entry nowTs fuel =
        .error "TypeError: asdict() should be called on dataclass instances") ∧
    (∀ (journal : List JournalEntry) (fuel : Nat),
      writeJournalRun journal false fuel = none) := by
  constructor
  · intro journal entry nowTs fuel; rfl
  · intro journal fuel
    cases fuel with
    | zero => rfl
    | succ n =>
      simp [writeJournalRun, acquireLock, acquireLock_held]

end PersonalAgent
